import Mathlib

/-!
Formal model of the authentication and session-bootstrap protocol of the
booking application (React frontend contexts/AuthContext.tsx, the page
components under frontend/src/pages, and the Flask backend JWT gate as
documented in backend-issues-analysis.md).

The client-visible session state is the pair (stored token, cached user)
together with the loading flag, and each asynchronous operation is embedded
as a pure function from the current state and the arrived response to the
next state (plus the outbound requests and surfaced messages the source
emits on that path).
-/

namespace BookingApp

/-- A registered user profile as held by the frontend (interface User in
contexts/AuthContext.tsx). -/
structure User where
  id : Nat
  email : String
  name : String
deriving DecidableEq, Repr

/-- The machine-readable authentication-failure kinds the backend emits.
Translated from the three flask-jwt-extended callbacks quoted in
backend-issues-analysis.md: expired_token_callback, invalid_token_callback
and missing_token_callback; these three cover the complete taxonomy present
in the code. -/
inductive VerificationError
  | missingToken
  | invalidToken
  | tokenExpired
deriving DecidableEq, Repr

/-- An error observed by a frontend request: either an authentication-layer
rejection produced by the gate, or a transport-level failure. -/
inductive ApiError
  | verification (k : VerificationError)
  | transport
deriving DecidableEq, Repr

/-- The Session Client state: the localStorage "token" entry, the cached
user from useState, and the loading flag (contexts/AuthContext.tsx). -/
structure ClientState where
  storedToken : Option String
  user : Option User
  loading : Bool
deriving DecidableEq, Repr

/-- The state at application start: the token possibly left in durable
storage by an earlier visit, user initialised to null, loading true
(useState calls in AuthProvider). -/
def initialState (tok : Option String) : ClientState :=
  ⟨tok, none, true⟩

/-- fetchUser from contexts/AuthContext.tsx: on a successful /auth/me
response, setUser(response.data.user); on any caught error,
localStorage.removeItem("token"); in both cases finally setLoading(false).
The catch clause does not inspect the error, so verification and transport
errors take the same branch. -/
def fetchUser (s : ClientState) (resp : Except ApiError User) : ClientState :=
  match resp with
  | .ok u => { s with user := some u, loading := false }
  | .error _ => { s with storedToken := none, loading := false }

/-- The mount-time useEffect of AuthProvider: read the stored token; if
present call fetchUser (one /auth/me request), otherwise only
setLoading(false). -/
def bootstrap (s : ClientState) (resp : Except ApiError User) : ClientState :=
  match s.storedToken with
  | some _ => fetchUser s resp
  | none => { s with loading := false }

/-- Number of requests the mount-time useEffect issues: one whoami request
when a token is stored, none otherwise. -/
def bootstrapRequestCount (s : ClientState) : Nat :=
  match s.storedToken with
  | some _ => 1
  | none => 0

/-- Outcome of a POST to /auth/login or /auth/register: the token and user
of a 2xx body, or the server-provided message of an error body. -/
inductive AuthResponse
  | success (token : String) (user : User)
  | failure (message : String)
deriving DecidableEq, Repr

/-- login from contexts/AuthContext.tsx: on success,
localStorage.setItem("token", token) then setUser(user); on failure the
awaited post throws, so no write happens and the message propagates to the
caller (second component). -/
def login (s : ClientState) (resp : AuthResponse) : ClientState × Option String :=
  match resp with
  | .success t u => ({ s with storedToken := some t, user := some u }, none)
  | .failure msg => (s, some msg)

/-- register from contexts/AuthContext.tsx: identical shape to login. -/
def register (s : ClientState) (resp : AuthResponse) : ClientState × Option String :=
  match resp with
  | .success t u => ({ s with storedToken := some t, user := some u }, none)
  | .failure msg => (s, some msg)

/-- logout from contexts/AuthContext.tsx:
localStorage.removeItem("token") and setUser(null). -/
def logout (s : ClientState) : ClientState :=
  { s with storedToken := none, user := none }

/-- Modelled from the spec: the axios instance in
frontend/src/services/api.ts is not among the sources; per spec sections
4.4 and 6 every outbound request automatically carries the currently
stored token when one is present, through a single central attachment
point. -/
def attachAuth (s : ClientState) : Option String :=
  s.storedToken

/-- An outbound HTTP request as built by the frontend service layer:
method, path, and the Authorization value attached from the session. -/
structure ApiCall where
  method : String
  path : String
  auth : Option String
deriving DecidableEq, Repr

/-- logout together with the requests its body issues: the source body
contains only the storage removal and setUser(null), no api call. -/
def logoutOp (s : ClientState) : ClientState × List ApiCall :=
  (logout s, [])

/-- A GET to a protected endpoint issued after the session reached state
s, with the centrally attached Authorization value. -/
def protectedGet (s : ClientState) (path : String) : ApiCall :=
  ⟨ "GET", path, attachAuth s⟩

/-- A booking row as consumed by pages/Bookings.tsx, projected to the
fields its logic consults (id, event_date, status); the remaining fields
of interface Booking are presentational strings and numbers. -/
structure Booking where
  id : Nat
  event_date : Int
  status : String
deriving DecidableEq, Repr

/-- Component-local state of pages/Bookings.tsx (bookings list and
loading flag). -/
structure BookingsPageState where
  bookings : List Booking
  loading : Bool
deriving DecidableEq, Repr

/-- fetchBookings from pages/Bookings.tsx: on success
setBookings(response.data.bookings); on any caught error only
toast.error("Failed to fetch bookings") — the session state is not
touched on either branch; finally setLoading(false). First component is
the (unchanged) session state, third the toast message. -/
def fetchBookings (c : ClientState) (p : BookingsPageState)
    (resp : Except ApiError (List Booking)) :
    ClientState × BookingsPageState × Option String :=
  match resp with
  | .ok bs => (c, { p with bookings := bs, loading := false }, none)
  | .error _ => (c, { p with loading := false }, some "Failed to fetch bookings")

/-- An event as consumed by pages/Events.tsx, projected to the fields its
booking logic consults; date is the parsed timestamp of the date string. -/
structure Event where
  id : Nat
  title : String
  date : Int
  max_participants : Nat
  current_participants : Nat
  type : String
deriving DecidableEq, Repr

/-- Component-local state of pages/Events.tsx. -/
structure EventsPageState where
  events : List Event
  loading : Bool
  bookingLoading : Option Nat
deriving DecidableEq, Repr

/-- fetchEvents from pages/Events.tsx: on success setEvents, on any caught
error only toast.error("Failed to fetch events"); session state untouched
on both branches. -/
def fetchEvents (c : ClientState) (p : EventsPageState)
    (resp : Except ApiError (List Event)) :
    ClientState × EventsPageState × Option String :=
  match resp with
  | .ok es => (c, { p with events := es, loading := false }, none)
  | .error _ => (c, { p with loading := false }, some "Failed to fetch events")

/-- Dashboard statistics as consumed by pages/Dashboard.tsx. -/
structure DashboardStats where
  total_bookings : Nat
  upcoming_bookings : Nat
  past_bookings : Nat
  total_events : Nat
deriving DecidableEq, Repr

/-- Component-local state of pages/Dashboard.tsx. -/
structure DashboardPageState where
  stats : Option DashboardStats
  recentBookings : List Booking
  loading : Bool
deriving DecidableEq, Repr

/-- fetchDashboardData from pages/Dashboard.tsx: on success set stats and
recent bookings; on any caught error only console.error — session state
untouched on both branches. -/
def fetchDashboardData (c : ClientState) (p : DashboardPageState)
    (resp : Except ApiError (DashboardStats × List Booking)) :
    ClientState × DashboardPageState :=
  match resp with
  | .ok r => (c, { p with stats := some r.1, recentBookings := r.2, loading := false })
  | .error _ => (c, { p with loading := false })

/-- The disabled condition of the Book Now button in pages/Events.tsx
(lines 166-182): current_participants >= max_participants, or this event
is the one whose booking is in flight, or the event date is earlier than
the current time. -/
def bookButtonDisabled (e : Event) (bookingLoading : Option Nat) (now : Int) : Bool :=
  decide (e.max_participants ≤ e.current_participants) ||
    (bookingLoading == some e.id) || decide (e.date < now)

/-- handleBooking from pages/Events.tsx: a POST to /bookings carrying
event_id (second component) with the centrally attached token. -/
def handleBooking (c : ClientState) (eventId : Nat) : ApiCall × Nat :=
  (⟨ "POST", "/bookings", attachAuth c⟩, eventId)

/-- The booking requests the Events page issues for one rendered event:
handleBooking is invoked only from the Book Now button onClick, and a
disabled button never fires onClick (DOM contract), so a request goes out
exactly when the user clicked and the button was enabled. -/
def eventsPageBookingRequests (c : ClientState) (e : Event)
    (bookingLoading : Option Nat) (now : Int) (clicked : Bool) :
    List (ApiCall × Nat) :=
  if clicked && !(bookButtonDisabled e bookingLoading now) then
    [handleBooking c e.id]
  else
    []

/-- handleBooking's response handling from pages/Events.tsx (lines 45-56):
on success toast "Booking successful!" and refresh the events list with a
follow-up fetchEvents; on any caught error only toast the server-provided
message, falling back to "Booking failed". The error carries the optional
response body message (error.response?.data?.message). The session state is
untouched on both branches; finally setBookingLoading(null). Third
component is the surfaced error message. -/
def handleBookingResponse (c : ClientState) (p : EventsPageState)
    (resp : Except (ApiError × Option String) Unit) :
    ClientState × EventsPageState × Option String :=
  match resp with
  | .ok _ => (c, { p with bookingLoading := none }, none)
  | .error e => (c, { p with bookingLoading := none },
      some (e.2.getD "Booking failed"))

/-- handleCancelBooking from pages/Bookings.tsx (lines 45-60): on success
toast and refresh the bookings list with a follow-up fetchBookings; on any
caught error only toast the server-provided message, falling back to
"Failed to cancel booking". The session state is untouched on both
branches; the cancelLoading spinner flag is presentational and not
embedded. Third component is the surfaced error message. -/
def handleCancelBooking (c : ClientState) (p : BookingsPageState)
    (resp : Except (ApiError × Option String) Unit) :
    ClientState × BookingsPageState × Option String :=
  match resp with
  | .ok _ => (c, p, none)
  | .error e => (c, p, some (e.2.getD "Failed to cancel booking"))

/-- Asynchronous session happenings in arrival order. Dispatching a login
leaves the state untouched (the source awaits the response); each resolve
event is the arrival of one response. The callId only records which
dispatch a response answers; the source handlers never consult it — there
is no generation or correlation check in contexts/AuthContext.tsx. -/
inductive SessionEvent
  | loginStart (callId : Nat)
  | loginResolve (callId : Nat) (token : String) (user : User)
  | loginReject (callId : Nat)
  | logoutEvent
  | whoamiResolve (user : User)
deriving DecidableEq, Repr

/-- The effect each arrival has on the session state, translated from the
corresponding handler in contexts/AuthContext.tsx: a login success stores
the token and sets the user unconditionally, a rejection propagates to the
caller without touching the state, logout clears both, a late /auth/me
success sets the user unconditionally. -/
def stepEvent (s : ClientState) : SessionEvent → ClientState
  | .loginStart _ => s
  | .loginResolve _ t u => { s with storedToken := some t, user := some u }
  | .loginReject _ => s
  | .logoutEvent => logout s
  | .whoamiResolve u => { s with user := some u, loading := false }

/-- Run a sequence of session events in arrival order. -/
def runEvents (s : ClientState) (tr : List SessionEvent) : ClientState :=
  List.foldl stepEvent s tr

/-- The completed operations of the session state machine available to the
user after bootstrap (contexts/AuthContext.tsx value object). -/
inductive UserOp
  | loginOp (resp : AuthResponse)
  | registerOp (resp : AuthResponse)
  | logoutOp
deriving DecidableEq, Repr

/-- Apply one completed user operation to the session state. -/
def applyUserOp (s : ClientState) : UserOp → ClientState
  | .loginOp r => (login s r).1
  | .registerOp r => (register s r).1
  | .logoutOp => logout s

/-- A whole client session: bootstrap once from the initially stored
token, then any sequence of completed user operations. -/
def runSession (tok : Option String) (b : Except ApiError User)
    (ops : List UserOp) : ClientState :=
  List.foldl applyUserOp (bootstrap (initialState tok) b) ops

/-- The token-backing invariant: whenever a user is cached, a token is
stored under the fixed localStorage key. -/
def tokenBacked (s : ClientState) : Bool :=
  s.user.isNone || s.storedToken.isSome

/-- A decoded bearer token: subject, expiry, and the signature bytes
condensed to a number. -/
structure Token where
  subject : Nat
  expires_at : Int
  sig : Nat
deriving DecidableEq, Repr

/-- Modelled from the spec: the backend signs tokens with a server-held
secret (spec section 4.1); the concrete MAC lives in the flask-jwt-extended
dependency, not in this repository, so any injective-enough keyed function
of the payload stands in for it. -/
def signToken (secret : Nat) (subject : Nat) (expires_at : Int) : Nat :=
  secret + 31 * subject + 17 * expires_at.natAbs

/-- Modelled from the spec: token verification as performed by
flask-jwt-extended under jwt_required (the library code is not in this
repository). Per spec section 4.2 and the three callbacks registered in
backend-issues-analysis.md: an absent header is missing_token, a signature
mismatch is invalid_token checked before expiry, an expired but well-signed
token is token_expired, and otherwise the subject is returned — the gate
performs no subject-existence lookup (the code's taxonomy has exactly the
three kinds above). -/
def verify (secret : Nat) (now : Int) (header : Option Token) :
    Except VerificationError Nat :=
  match header with
  | none => .error .missingToken
  | some tok =>
    if tok.sig = signToken secret tok.subject tok.expires_at then
      if tok.expires_at < now then .error .tokenExpired
      else .ok tok.subject
    else .error .invalidToken

/-- A backend response for the gated jwt-test endpoint: either one of the
short-circuit authorization failures, or the wrapped handler's own
response. -/
inductive GateResponse
  | authFailure (status : Nat) (errorKind : String) (message : String)
  | handlerResponse (status : Nat) (user : Option User) (tokenValid : Bool)
      (message : String)
deriving DecidableEq, Repr

/-- The three error callbacks registered on the backend (translated from
backend-issues-analysis.md): each maps its VerificationError to a 401 with
the machine-readable kind and human-readable message of the source. -/
def verificationErrorResponse : VerificationError → GateResponse
  | .tokenExpired => .authFailure 401 "token_expired" "Token has expired"
  | .invalidToken => .authFailure 401 "invalid_token" "Invalid token"
  | .missingToken => .authFailure 401 "missing_token" "Authorization token is required"

/-- The jwt_test handler body from backend-issues-analysis.md: look the
verified subject up in the users table (Query.get returns None for a
missing id, raising nothing) and answer 200 with the user or null and
token_valid true. -/
def jwt_test (db : List User) (userId : Nat) : GateResponse :=
  .handlerResponse 200 (db.find? (fun u => u.id == userId)) true "JWT token is valid"

/-- The jwt-test endpoint behind the Protected Resource Gate: verify the
header; on any VerificationError short-circuit with the registered
callback's response, otherwise run the wrapped handler. -/
def gateJwtTest (secret : Nat) (now : Int) (db : List User)
    (header : Option Token) : GateResponse :=
  match verify secret now header with
  | .error e => verificationErrorResponse e
  | .ok uid => jwt_test db uid

/-- Whether a gate response came from the wrapped handler (as opposed to a
short-circuit authorization failure). -/
def GateResponse.handlerExecuted : GateResponse → Bool
  | .authFailure _ _ _ => false
  | .handlerResponse _ _ _ _ => true

/-- A concrete registered user used by the concrete evaluations below. -/
def sampleUser : User :=
  ⟨1, "a@x.com", "A"⟩

/-- A concrete authenticated session state: token stored, user cached. -/
def authedState : ClientState :=
  ⟨some "T1", some sampleUser, false⟩

/-- C1 counterexample: in an authenticated session, the bookings-list
request receiving an authorization failure (token_expired) leaves the
token stored and the user cached — the session remains Authenticated,
contradicting the claim that it never remains Authenticated after an
authorization failure. -/
theorem c1_counterexample :
    (fetchBookings authedState ⟨[], true⟩
        (Except.error (ApiError.verification VerificationError.tokenExpired))).1.user
      = some sampleUser ∧
    (fetchBookings authedState ⟨[], true⟩
        (Except.error (ApiError.verification VerificationError.tokenExpired))).1.storedToken
      = some "T1" :=
  ⟨rfl, rfl⟩

/-- C1 amended: an error (authorization failure included) on the bookings
list, booking create, booking cancel, events list or dashboard stats
request leaves the session state completely unchanged — only the bootstrap
whoami request discards the stored token on failure. -/
theorem c1_amended (c : ClientState) (pb : BookingsPageState)
    (pe : EventsPageState) (pd : DashboardPageState) (e : ApiError)
    (m : Option String) :
    (fetchBookings c pb (Except.error e)).1 = c ∧
    (handleCancelBooking c pb (Except.error (e, m))).1 = c ∧
    (fetchEvents c pe (Except.error e)).1 = c ∧
    (handleBookingResponse c pe (Except.error (e, m))).1 = c ∧
    (fetchDashboardData c pd (Except.error e)).1 = c ∧
    (fetchUser c (Except.error e)).storedToken = none :=
  ⟨rfl, rfl, rfl, rfl, rfl, rfl⟩

/-- A trace in which a login is dispatched, the user logs out, and the
stale login success arrives after the logout. -/
def staleLoginTrace : List SessionEvent :=
  [SessionEvent.loginStart 1, SessionEvent.logoutEvent,
    SessionEvent.loginResolve 1 "T1" sampleUser]

/-- C2 counterexample: a stale login success arriving after logout does
resurrect the user and re-stores its token — the source has no session
generation and applies every arriving response, contradicting the claim
that a stale response dispatched under an older session is ignored. -/
theorem c2_counterexample :
    (runEvents (initialState none) staleLoginTrace).user = some sampleUser ∧
    (runEvents (initialState none) staleLoginTrace).storedToken = some "T1" :=
  ⟨rfl, rfl⟩

/-- C2 amended: the session ends in the state of the response that
arrived last, not the one last accepted under a generation guard: whatever
happened before, a login success arriving last unconditionally sets the
stored token and user — so a stale response does overwrite newer state and
does resurrect the user after logout. -/
theorem c2_amended (s : ClientState) (tr : List SessionEvent) (c : Nat)
    (t : String) (u : User) :
    (runEvents s (tr ++ [SessionEvent.loginResolve c t u])).user = some u ∧
    (runEvents s (tr ++ [SessionEvent.loginResolve c t u])).storedToken = some t := by
  unfold runEvents
  rw [List.foldl_append]
  exact ⟨rfl, rfl⟩

/-- C3: bootstrap with no stored token issues no request and settles
Unauthenticated; with a stored token it issues exactly one whoami request,
and settles Authenticated with the user populated on success while on any
verification failure the stored token is discarded and it settles
Unauthenticated. -/
theorem c3_bootstrap (t : String) (u : User) (k : VerificationError)
    (r : Except ApiError User) :
    bootstrap (initialState none) r = ⟨none, none, false⟩ ∧
    bootstrapRequestCount (initialState none) = 0 ∧
    bootstrapRequestCount (initialState (some t)) = 1 ∧
    bootstrap (initialState (some t)) (Except.ok u) = ⟨some t, some u, false⟩ ∧
    bootstrap (initialState (some t)) (Except.error (ApiError.verification k))
      = ⟨none, none, false⟩ :=
  ⟨rfl, rfl, rfl, rfl, rfl⟩

/-- C4 counterexample: a transport error during bootstrap removes the
stored token — the catch clause does not distinguish transport errors from
verification failures — contradicting the claim that the stored token
remains in local storage. -/
theorem c4_counterexample :
    (bootstrap (initialState (some "T1")) (Except.error ApiError.transport)).storedToken
      = none ∧
    ¬ (bootstrap (initialState (some "T1"))
        (Except.error ApiError.transport)).storedToken = some "T1" := by
  refine ⟨rfl, ?_⟩
  intro h
  simp [bootstrap, initialState, fetchUser] at h

/-- C4 amended: during bootstrap a transport error is handled exactly like
a verification failure: the stored token is discarded; the user (null at
bootstrap) is unchanged. -/
theorem c4_amended (t : String) :
    bootstrap (initialState (some t)) (Except.error ApiError.transport)
      = ⟨none, none, false⟩ ∧
    (bootstrap (initialState (some t)) (Except.error ApiError.transport)).user
      = (initialState (some t)).user :=
  ⟨rfl, rfl⟩

/-- A well-signed, unexpired token (secret 5, expiry 100, now 50) whose
subject 42 is not a registered user. -/
def orphanToken : Token :=
  ⟨42, 100, signToken 5 42 100⟩

/-- C5 counterexample: with a valid unexpired token whose subject resolves
to no Identity, the gated jwt-test endpoint does not short-circuit with an
unknown_subject authorization failure: the wrapped handler executes and
answers 200 with user null — contradicting the claim. -/
theorem c5_counterexample :
    gateJwtTest 5 50 [sampleUser] (some orphanToken)
      = GateResponse.handlerResponse 200 none true "JWT token is valid" ∧
    (gateJwtTest 5 50 [sampleUser] (some orphanToken)).handlerExecuted = true :=
  ⟨rfl, rfl⟩

/-- C5 amended: when the signature is valid, the token unexpired and the
subject resolves to no user, the gate admits the request (its taxonomy has
only missing_token, invalid_token and token_expired), the wrapped handler
executes, and jwt-test responds 200 with user null and token_valid true. -/
theorem c5_amended (secret : Nat) (now : Int) (db : List User) (tok : Token)
    (hsig : tok.sig = signToken secret tok.subject tok.expires_at)
    (hexp : ¬ tok.expires_at < now)
    (hsub : db.find? (fun u => u.id == tok.subject) = none) :
    gateJwtTest secret now db (some tok)
      = GateResponse.handlerResponse 200 none true "JWT token is valid" := by
  simp [gateJwtTest, verify, jwt_test, hsig, hexp, hsub]

/-- C5 amended, concrete instance: the well-signed orphan token against an
empty user table. -/
theorem c5_amended_witness :
    gateJwtTest 5 50 [] (some orphanToken)
      = GateResponse.handlerResponse 200 none true "JWT token is valid" :=
  c5_amended 5 50 [] orphanToken rfl (by decide) rfl

/-- C6: a token whose signature does not match the payload's correct
signature (any altered signature byte) verifies to invalid_token whatever
the clock and the embedded expiry say — the signature check precedes the
expiry check, so it is never reported expired and never accepted. -/
theorem c6_invalid_signature (secret : Nat) (now : Int) (tok : Token)
    (h : ¬ tok.sig = signToken secret tok.subject tok.expires_at) :
    verify secret now (some tok) = Except.error VerificationError.invalidToken := by
  simp [verify, h]

/-- An expired token whose signature was altered away from the correct
value. -/
def tamperedToken : Token :=
  ⟨42, -1000, 0⟩

/-- C6 concrete instance: the tampered token is long expired (expiry -1000
against now 50) yet verifies to invalid_token, not token_expired. -/
theorem c6_invalid_signature_witness :
    verify 5 50 (some tamperedToken) = Except.error VerificationError.invalidToken :=
  c6_invalid_signature 5 50 tamperedToken (by decide)

/-- C7: login on success stores the returned token and user and the
session becomes Authenticated with no surfaced error; on failure the
session state is returned unchanged — no token written, user untouched —
and the server-provided message is surfaced to the caller. -/
theorem c7_login (s : ClientState) (t : String) (u : User) (msg : String) :
    login s (AuthResponse.success t u)
      = ({ s with storedToken := some t, user := some u }, none) ∧
    login s (AuthResponse.failure msg) = (s, some msg) :=
  ⟨rfl, rfl⟩

/-- C8: logout unconditionally clears the stored token and the cached
user, issues no server call, and any protected request built afterwards
carries no Authorization value. -/
theorem c8_logout (s : ClientState) (path : String) :
    (logoutOp s).1.storedToken = none ∧
    (logoutOp s).1.user = none ∧
    (logoutOp s).2 = [] ∧
    (protectedGet (logoutOp s).1 path).auth = none :=
  ⟨rfl, rfl, rfl, rfl⟩

/-- Each completed user operation preserves the token-backing invariant. -/
theorem tokenBacked_step (s : ClientState) (op : UserOp)
    (h : tokenBacked s = true) : tokenBacked (applyUserOp s op) = true := by
  cases op with
  | loginOp r => cases r with
    | success t u => rfl
    | failure m => exact h
  | registerOp r => cases r with
    | success t u => rfl
    | failure m => exact h
  | logoutOp => rfl

/-- Bootstrap establishes the token-backing invariant from any initially
stored token and any whoami outcome. -/
theorem tokenBacked_bootstrap (tok : Option String) (r : Except ApiError User) :
    tokenBacked (bootstrap (initialState tok) r) = true := by
  cases tok with
  | none => rfl
  | some t => cases r with
    | ok u => rfl
    | error e => rfl

/-- The token-backing invariant is preserved along any sequence of
completed user operations. -/
theorem tokenBacked_foldl (ops : List UserOp) (s : ClientState)
    (h : tokenBacked s = true) :
    tokenBacked (List.foldl applyUserOp s ops) = true := by
  induction ops generalizing s with
  | nil => exact h
  | cons op rest ih => exact ih (applyUserOp s op) (tokenBacked_step s op h)

/-- C9: after bootstrap and every completed session operation, whenever
the cached user is present the token entry is present in durable storage
under the fixed key — operations that set the user store the token, and
operations that remove the token leave the user absent. -/
theorem c9_token_backed (tok : Option String) (r : Except ApiError User)
    (ops : List UserOp) : tokenBacked (runSession tok r ops) = true := by
  unfold runSession
  exact tokenBacked_foldl ops (bootstrap (initialState tok) r)
    (tokenBacked_bootstrap tok r)

/-- C10: the Events page never issues a booking-creation request for an
event that is full (current_participants at or over max_participants) or
already past (date earlier than now): the only call site of handleBooking
is the Book Now button, which is disabled in exactly those conditions. -/
theorem c10_no_booking_when_full_or_past (c : ClientState) (e : Event)
    (bl : Option Nat) (now : Int) (clicked : Bool)
    (h : e.max_participants ≤ e.current_participants ∨ e.date < now) :
    eventsPageBookingRequests c e bl now clicked = [] := by
  have hd : bookButtonDisabled e bl now = true := by
    unfold bookButtonDisabled
    rcases h with h | h
    · simp [h]
    · simp [h]
  unfold eventsPageBookingRequests
  rw [hd]
  simp

/-- A fully booked event (15 of 15 participants). -/
def fullEvent : Event :=
  ⟨7, "Morning Meditation Session", 200, 15, 15, "session"⟩

/-- C10 concrete instance: no booking request goes out for the full event
even on a click while authenticated. -/
theorem c10_witness :
    eventsPageBookingRequests authedState fullEvent none 100 true = [] :=
  c10_no_booking_when_full_or_past authedState fullEvent none 100 true
    (Or.inl (by decide))

end BookingApp
